import Mathlib

/-!
Verification development for the Bully leader-election client in `src/lab2.py`.

The embedding below follows the source code of `lab2.py` directly:

* `ProcID` is Python's `processID` tuple `(daysToBirthday, studentID)`.
* `Client` holds the fields of `Client.__init__` that the election logic
  reads or writes: `processID`, the keys of the `member` dictionary (in
  iteration order), and `leader`.
* `send_message`, `announce_leader`, `start_election`, `parse_message` and
  `get_members` are the methods of the same names; a "send" is recorded as
  a `Send` value instead of opening a socket, and a caught exception is an
  explicit alternative of the input instead of a raised one.
* The blocking window in `start_election` (`time.sleep(TIMEOUT)`) runs on
  the only thread that ever touches `leader` (the poll loop of `run`; the
  `socketserver` handler threads only append to the mailbox), so in the
  sequential embedding nothing happens between clearing `leader` and the
  `if not self.leader` check; `election_expiry` models that check.
* The mailbox (`report_message` / `harvest_messages`) is modelled as an
  operation-level transition system in which a `report` can only complete
  while the `message_sync` event is set, exactly as `Event.wait` behaves.
* A whole-network small-step model (`netStep`) composes the per-process
  code to study executions of several clients with in-flight messages.
-/

/-- Python `processID = (daysToBirthday, studentID)`. -/
abbrev ProcID := Nat × Nat

/-- An outbound message recorded instead of being written to a socket:
the receiver it is addressed to and the `messageType` string. -/
structure Send where
  receiver : ProcID
  messageType : String
  deriving DecidableEq

/-- The fields of `Client` (lab2.py `__init__`) that the election logic uses:
`processID`, the keys of the `member` dict in iteration order, and `leader`
(`None` encoded as `none`). -/
structure Client where
  processID : ProcID
  member : List ProcID
  leader : Option ProcID
  deriving DecidableEq

/-- Modelled from the spec: the lexicographic strict order on the full
`(priority, tiebreaker)` composite, which the spec says governs elections.
Used only to state the spec's claims; the code itself compares only the
second component. -/
def lexGT (a b : ProcID) : Bool :=
  decide (b.1 < a.1) || (decide (a.1 = b.1) && decide (b.2 < a.2))

/-- lab2.py `Client.send_message` (lines 118-133): if the receiver is not a
key of the `member` dict the send is refused (only a log line is printed);
otherwise one message is sent to the receiver's address. -/
def send_message (s : Client) (receiverID : ProcID) (messageType : String) : List Send :=
  if receiverID ∈ s.member then [⟨receiverID, messageType⟩] else []

/-- lab2.py `Client.announce_leader` (lines 155-160): send COORDINATOR to
every key of `member` other than `self.processID`. -/
def announce_leader (s : Client) : List Send :=
  (s.member.filter (fun pid => pid ≠ s.processID)).flatMap
    (fun pid => send_message s pid "COORDINATOR")

/-- The ELECTION broadcast of lab2.py `Client.start_election` (lines 139-144):
send ELECTION to every key `pid` of `member` with `pid[1] > self.processID[1]`
(note: the comparison in the source is on the second tuple component only). -/
def election_sends (s : Client) : List Send :=
  (s.member.filter (fun pid => s.processID.2 < pid.2)).flatMap
    (fun pid => send_message s pid "ELECTION")

/-- The first half of lab2.py `Client.start_election` (lines 135-144), up to
the waiting window: `self.leader = None`, then the ELECTION broadcast. -/
def start_election_begin (s : Client) : Client × List Send :=
  ({ s with leader := none }, election_sends s)

/-- The second half of lab2.py `Client.start_election` (lines 146-153), after
`time.sleep(TIMEOUT)`: `if not self.leader`, declare self the leader and run
`announce_leader`. -/
def election_expiry (s : Client) : Client × List Send :=
  if s.leader = none then
    (({ s with leader := some s.processID }),
      announce_leader { s with leader := some s.processID })
  else (s, [])

/-- lab2.py `Client.start_election` (lines 135-153) as executed by the poll
loop: the waiting window blocks the only thread that can write `leader`
(handler threads only append to the mailbox), so the expiry check runs on
the state left by `start_election_begin` unchanged. -/
def start_election (s : Client) : Client × List Send :=
  let b := start_election_begin s
  let e := election_expiry b.1
  (e.1, b.2 ++ e.2)

/-- lab2.py `Client.parse_message` (lines 103-116): dispatch on the
`messageType` string. ELECTION from a sender with smaller second component:
reply OK, then run `start_election`. OK: nothing (only a print). COORDINATOR:
`self.leader = sender_id`, unconditionally. Any other string: nothing. -/
def parse_message (s : Client) (messageType : String) (sender_id : ProcID) :
    Client × List Send :=
  if messageType = "ELECTION" then
    if sender_id.2 < s.processID.2 then
      let ok := send_message s sender_id "OK"
      let e := start_election s
      (e.1, ok ++ e.2)
    else (s, [])
  else if messageType = "OK" then (s, [])
  else if messageType = "COORDINATOR" then
    ({ s with leader := some sender_id }, [])
  else (s, [])

/-- Outcome of the socket exchange inside lab2.py `Client.get_members`
(lines 83-95): either the decoded GCD response (the membership dict, keys
listed in iteration order), or any raised exception (connection failure or
decode failure). -/
inductive GCDResult where
  | ok (members : List ProcID)
  | failed
  deriving DecidableEq

/-- lab2.py `Client.get_members` (lines 72-95): on success, `self.member`
is replaced by the response; on any exception the handler only prints
"Fail to connect to GCD server" and returns, leaving the state unchanged.
No retry, no re-raise, no exit. -/
def get_members (res : GCDResult) (s : Client) : Client :=
  match res with
  | .ok m => { s with member := m }
  | .failed => s

/-- Top-level actions of lab2.py `Client.run` (lines 162-171), recorded in
execution order. -/
inductive RunAction where
  | registered
  | registrationFailed
  | startedServer
  | startedElection
  | exitedNonZero
  deriving DecidableEq

/-- lab2.py `Client.run` (lines 162-171) up to the poll loop: call
`get_members`, start the server thread, call `start_election` — in that
order, unconditionally; there is no branch that exits on a registration
failure. -/
def run_startup (res : GCDResult) (s : Client) :
    Client × List RunAction × List Send :=
  let s1 := get_members res s
  let act := match res with
    | .ok _ => RunAction.registered
    | .failed => RunAction.registrationFailed
  let e := start_election s1
  (e.1, [act, RunAction.startedServer, RunAction.startedElection], e.2)

/-- An item deposited into the mailbox by the request handler of lab2.py:
the `(messageType, sender_id)` pair passed to `report_message`. -/
abbrev Item := String × ProcID

/-- The mailbox fields of lab2.py `Client.__init__` (lines 49-51):
the `messages` list and the two `threading.Event` objects, `message_sync`
and `message_flag`; a Python `Event` holds a boolean flag. -/
structure Mailbox where
  messages : List Item
  message_sync : Bool
  message_flag : Bool
  deriving DecidableEq

/-- The mailbox state right after `Client.__init__`: `messages = []` and both
events unset (`threading.Event()` starts false). -/
def mailbox_init : Mailbox := ⟨[], false, false⟩

/-- A mailbox operation: a completed `report_message(m)` call or a
`harvest_messages()` call. -/
inductive MOp where
  | report (m : Item)
  | harvest
  deriving DecidableEq

/-- One mailbox operation, from lab2.py lines 57-70. `report_message`
(lines 57-61) first executes `self.message_sync.wait()`: while the event is
unset the call blocks before appending, so the step is not enabled (`none`);
once past the wait it appends the item and sets `message_flag`.
`harvest_messages` (lines 63-70) clears `message_sync`, takes the whole
buffer, installs a fresh empty list, clears `message_flag`, sets
`message_sync`, and returns the taken buffer. -/
def mstep (s : Mailbox) : MOp → Option (Mailbox × List Item)
  | .report m =>
      if s.message_sync then
        some ({ s with messages := s.messages ++ [m], message_flag := true }, [])
      else none
  | .harvest => some (⟨[], true, false⟩, s.messages)

/-- Run a sequence of mailbox operations, collecting everything the harvest
calls returned; `none` when some operation in the sequence is blocked. -/
def mrun (s : Mailbox) : List MOp → Option (Mailbox × List Item)
  | [] => some (s, [])
  | op :: ops =>
    match mstep s op with
    | none => none
    | some (s1, out) =>
      match mrun s1 ops with
      | none => none
      | some (s2, outs) => some (s2, out ++ outs)

/-- The items deposited by the completed `report` operations of a sequence,
in order. -/
def deposits : List MOp → List Item
  | [] => []
  | .report m :: ops => m :: deposits ops
  | .harvest :: ops => deposits ops

/-- The per-process election state visible to the whole-network model:
the process's `leader` field, and whether the process is currently inside
the blocking waiting window of `start_election` (between the ELECTION
broadcast and the `if not self.leader` check). -/
structure PState where
  leader : Option ProcID
  electing : Bool
  deriving DecidableEq

/-- A message in flight: still in the TCP stream or sitting unprocessed in
the destination's mailbox. -/
structure Packet where
  messageType : String
  sender : ProcID
  dest : ProcID
  deriving DecidableEq

/-- A whole-network configuration: the group (every process's `member` dict
has the same keys, the GCD's response), each process's election state, and
the in-flight messages. -/
structure Net where
  procs : List ProcID
  st : List (ProcID × PState)
  flight : List Packet
  deriving DecidableEq

/-- Association-list lookup keyed by `ProcID`. -/
def alookup (p : ProcID) : List (ProcID × PState) → Option PState
  | [] => none
  | (q, s) :: rest => if q = p then some s else alookup p rest

/-- Association-list update keyed by `ProcID`. -/
def aupdate (p : ProcID) (f : PState → PState) :
    List (ProcID × PState) → List (ProcID × PState)
  | [] => []
  | (q, s) :: rest =>
    if q = p then (q, f s) :: rest else (q, s) :: aupdate p f rest

/-- A whole-network event: process `p` calls `start_election` from `run`
(lab2.py line 169); the waiting window of `p`'s current `start_election`
call expires (line 146); or the in-flight message at index `i` is processed
by its destination's poll loop (`parse_message`, lines 103-116). -/
inductive Ev where
  | start (p : ProcID)
  | expire (p : ProcID)
  | deliver (i : Nat)
  deriving DecidableEq

/-- One whole-network step, composing the code of lab2.py. A process inside
its waiting window processes no message (its poll-loop thread is blocked in
`time.sleep`, and `parse_message`'s own `start_election` likewise blocks),
so `deliver` to it is not enabled. ELECTION handling (lines 105-109): when
the destination's second component exceeds the sender's, it emits OK and
re-enters `start_election` — `leader` cleared, ELECTION broadcast to the
higher-second-component peers, window open. COORDINATOR handling (lines
114-116): `leader := sender`, unconditionally. OK and unknown kinds change
nothing. Window expiry (lines 146-153): with `leader` still unset, the
process declares itself leader and broadcasts COORDINATOR to every other
member. -/
def netStep (n : Net) : Ev → Option Net
  | .start p =>
    match alookup p n.st with
    | none => none
    | some ps =>
      if ps.electing then none
      else some { n with
        st := aupdate p (fun s => { s with leader := none, electing := true }) n.st,
        flight := n.flight ++
          (n.procs.filter (fun q => p.2 < q.2)).map
            (fun q => ⟨"ELECTION", p, q⟩) }
  | .expire p =>
    match alookup p n.st with
    | none => none
    | some ps =>
      if ps.electing then
        if ps.leader = none then
          some { n with
            st := aupdate p
              (fun s => { s with leader := some p, electing := false }) n.st,
            flight := n.flight ++
              (n.procs.filter (fun q => q ≠ p)).map
                (fun q => ⟨"COORDINATOR", p, q⟩) }
        else
          some { n with
            st := aupdate p (fun s => { s with electing := false }) n.st }
      else none
  | .deliver i =>
    match n.flight[i]? with
    | none => none
    | some pkt =>
      match alookup pkt.dest n.st with
      | none => none
      | some ps =>
        if ps.electing then none
        else
          let n1 : Net := { n with flight := n.flight.eraseIdx i }
          if pkt.messageType = "ELECTION" then
            if pkt.sender.2 < pkt.dest.2 then
              some { n1 with
                st := aupdate pkt.dest
                  (fun s => { s with leader := none, electing := true }) n1.st,
                flight := n1.flight ++ [⟨"OK", pkt.dest, pkt.sender⟩] ++
                  (n1.procs.filter (fun q => pkt.dest.2 < q.2)).map
                    (fun q => ⟨"ELECTION", pkt.dest, q⟩) }
            else some n1
          else if pkt.messageType = "COORDINATOR" then
            some { n1 with
              st := aupdate pkt.dest
                (fun s => { s with leader := some pkt.sender }) n1.st }
          else some n1

/-- Run a sequence of whole-network events; `none` when one is not enabled. -/
def netRun (n : Net) : List Ev → Option Net
  | [] => some n
  | e :: es =>
    match netStep n e with
    | none => none
    | some n1 => netRun n1 es

/-- A two-process group, both live: processIDs `(0,1)` and `(0,2)`. -/
def c1net : Net :=
  ⟨[(0,1), (0,2)], [((0,1), ⟨none, false⟩), ((0,2), ⟨none, false⟩)], []⟩

/-- A lossless schedule for `c1net` in which only `(0,1)` starts an election:
`(0,2)` processes the ELECTION (replying OK and opening its own window),
both waiting windows expire before either COORDINATOR is processed, and all
in-flight messages are then delivered. -/
def c1trace : List Ev :=
  [.start (0,1), .deliver 0, .expire (0,2), .expire (0,1),
   .deliver 2, .deliver 1, .deliver 0]

/-- The configuration `c1trace` leads to: quiescent (no message in flight,
no window open), `(0,1)` follows `(0,2)` but `(0,2)` follows `(0,1)`. -/
def c1final : Net :=
  ⟨[(0,1), (0,2)],
   [((0,1), ⟨some (0,2), false⟩), ((0,2), ⟨some (0,1), false⟩)], []⟩

/-- A freshly constructed client used to exercise a failed registration. -/
def c2client : Client := ⟨(5,100), [], none⟩

/-- A client whose processID `(5,100)` is lexicographically greater than the
peer `(3,200)` but has the smaller second component. -/
def c3client : Client := ⟨(5,100), [(3,200), (5,100)], none⟩

/-- A client whose only peer `(3,200)` is lexicographically smaller than its
own processID `(5,100)` but has the greater second component. -/
def c4client : Client := ⟨(5,100), [(3,200)], some (9,9)⟩

/-- A client whose member directory does not contain the sender `(7,777)`. -/
def c8client : Client := ⟨(5,100), [(5,100)], some (9,999)⟩

/-- Helper: over a list of recipients that are all keys of the member dict,
`send_message` never refuses, so iterated sending is just one message per
recipient. -/
lemma flatMap_send_of_subset (s : Client) (k : String) (l : List ProcID)
    (h : ∀ x ∈ l, x ∈ s.member) :
    l.flatMap (fun pid => send_message s pid k) =
      l.map (fun pid => (⟨pid, k⟩ : Send)) := by
  induction l with
  | nil => rfl
  | cons a t ih =>
    have ha : a ∈ s.member := h a (List.mem_cons_self a t)
    have ht : ∀ x ∈ t, x ∈ s.member := fun x hx => h x (List.mem_cons_of_mem a hx)
    simp only [List.flatMap_cons, List.map_cons, ih ht]
    simp [send_message, ha]

/-- Helper: `announce_leader` sends exactly one COORDINATOR to each member
other than self, in directory order. -/
lemma announce_leader_eq (s : Client) :
    announce_leader s =
      (s.member.filter (fun pid => pid ≠ s.processID)).map
        (fun pid => (⟨pid, "COORDINATOR"⟩ : Send)) := by
  apply flatMap_send_of_subset
  intro x hx
  exact (List.mem_filter.mp hx).1

/-- Helper: unfolding equation of `mrun` on a nonempty operation sequence. -/
lemma mrun_cons (s : Mailbox) (op : MOp) (ops : List MOp) :
    mrun s (op :: ops) =
      match mstep s op with
      | none => none
      | some (s1, out) =>
        match mrun s1 ops with
        | none => none
        | some (s2, outs2) => some (s2, out ++ outs2) := rfl

/-- Helper: running mailbox operations loses and duplicates nothing — the
harvested outputs followed by the final buffer are exactly the initial
buffer followed by the completed deposits, in order. -/
lemma mrun_round_trip (tr : List MOp) :
    ∀ (s fin : Mailbox) (outs : List Item),
      mrun s tr = some (fin, outs) →
      outs ++ fin.messages = s.messages ++ deposits tr := by
  induction tr with
  | nil =>
    intro s fin outs h
    simp [mrun] at h
    simp [h.1, h.2, deposits]
  | cons op ops ih =>
    intro s fin outs h
    rw [mrun_cons] at h
    split at h
    · exact absurd h (by simp)
    next s1 out heq =>
      split at h
      · exact absurd h (by simp)
      next s2 outs2 heq2 =>
        simp only [Option.some.injEq, Prod.mk.injEq] at h
        obtain ⟨h1, h2⟩ := h
        subst h2
        rw [← h1]
        have hih := ih s1 s2 outs2 heq2
        cases op with
        | report m =>
          simp only [mstep] at heq
          by_cases hs : s.message_sync = true
          · rw [if_pos hs] at heq
            simp only [Option.some.injEq, Prod.mk.injEq] at heq
            obtain ⟨hq1, hq2⟩ := heq
            subst hq1
            subst hq2
            simp [deposits, List.append_assoc] at hih ⊢
            simp [hih, List.append_assoc]
          · rw [if_neg hs] at heq
            exact absurd heq (by simp)
        | harvest =>
          simp only [mstep, Option.some.injEq, Prod.mk.injEq] at heq
          obtain ⟨hq1, hq2⟩ := heq
          subst hq1
          subst hq2
          simp [deposits, List.append_assoc] at hih ⊢
          simp [hih, List.append_assoc]

/-- Helper: from a mailbox whose gate is closed, a sequence of operations
that completes cannot hold a `report` at position `i` unless a `harvest`
occurs strictly earlier in the sequence. -/
lemma mrun_report_needs_harvest (tr : List MOp) (s fin : Mailbox)
    (outs : List Item) (hsync : s.message_sync = false)
    (h : mrun s tr = some (fin, outs)) :
    ∀ (i : Nat) (m : Item), tr[i]? = some (MOp.report m) →
      MOp.harvest ∈ tr.take i := by
  cases tr with
  | nil =>
    intro i m hi
    simp at hi
  | cons op ops =>
    cases op with
    | report m0 =>
      intro i m hi
      exfalso
      rw [mrun_cons] at h
      simp [mstep, hsync] at h
    | harvest =>
      intro i m hi
      cases i with
      | zero => simp at hi
      | succ k => simp [List.take_succ_cons]

/-- Helper: the ELECTION broadcast sends exactly one ELECTION to each member
whose second component exceeds self's, in directory order. -/
lemma election_sends_eq (s : Client) :
    election_sends s =
      (s.member.filter (fun pid => s.processID.2 < pid.2)).map
        (fun pid => (⟨pid, "ELECTION"⟩ : Send)) := by
  apply flatMap_send_of_subset
  intro x hx
  exact (List.mem_filter.mp hx).1

/-- C1. Claim: with unique totally-ordered ProcessIDs and no message loss,
an election started by any subset converges so that every live process's
`leader` equals the maximum ProcessID among live processes. The code
violates this: in the two-process group `c1net`, with only `(0,1)` starting
an election and every message delivered (`c1trace` loses nothing), the
execution quiesces with the maximal process `(0,2)` holding
`leader = (0,1)`. The cause is that receiving OK changes no state and no
message is processed during the blocking waiting window, so `(0,2)`
self-declares and then adopts the lower process's later COORDINATOR. -/
theorem lab2_c1_nonconvergent_execution :
    netRun c1net c1trace = some c1final ∧
    c1final.flight = [] ∧
    alookup (0,1) c1final.st = some ⟨some (0,2), false⟩ ∧
    alookup (0,2) c1final.st = some ⟨some (0,1), false⟩ ∧
    lexGT (0,2) (0,1) = true := by
  decide

/-- C2. Claim as written: a registry failure is fatal, the process exits
non-zero and never runs the election. Counterexample: on a failed
registration, `run` still performs the startup sequence ending in
`start_election` — the recorded action list contains `startedElection` and
equals a list without any exit action — and the client even declares itself
leader. -/
theorem lab2_c2_counterexample :
    (run_startup GCDResult.failed c2client).2.1 =
      [RunAction.registrationFailed, RunAction.startedServer,
        RunAction.startedElection] ∧
    (run_startup GCDResult.failed c2client).1 = ⟨(5,100), [], some (5,100)⟩ := by
  decide

/-- C2 amended: if the connection to the GCD cannot be established or its
response cannot be decoded, the exception is caught and only logged: no
retry is attempted, the member directory is left unchanged, and the process
does not exit — `run` proceeds to start the listener and run the election. -/
theorem lab2_c2_failure_is_caught (s : Client) :
    get_members GCDResult.failed s = s ∧
    (run_startup GCDResult.failed s).2.1 =
      [RunAction.registrationFailed, RunAction.startedServer,
        RunAction.startedElection] :=
  ⟨rfl, rfl⟩

/-- C3. Claim as written: ELECTION handling compares ProcessIDs
lexicographically on the full composite. Counterexample: the receiver
`(5,100)` is lexicographically greater than the sender `(3,200)`, and the
sender is in the member directory, yet `parse_message` neither replies OK
nor starts an election — it compares only the second components. -/
theorem lab2_c3_counterexample :
    lexGT c3client.processID (3,200) = true ∧
    parse_message c3client "ELECTION" (3,200) = (c3client, []) := by
  decide

/-- C3 amended: for a received ELECTION message from a sender in the member
directory, the receiver replies OK and starts its own election exactly when
its second component (studentID) exceeds the sender's second component;
otherwise it does nothing — the first components take no part in the
comparison. -/
theorem lab2_c3_second_component_rule (s : Client) (sender : ProcID)
    (hmem : sender ∈ s.member) :
    parse_message s "ELECTION" sender =
      if sender.2 < s.processID.2 then
        ((start_election s).1, ⟨sender, "OK"⟩ :: (start_election s).2)
      else (s, []) := by
  by_cases h : sender.2 < s.processID.2 <;>
    simp [parse_message, send_message, hmem, h]

/-- C3 witness: a concrete instance of the amended rule, with the sender in
the member directory. -/
theorem lab2_c3_witness :
    parse_message ⟨(5,200), [(5,100), (5,200)], none⟩ "ELECTION" (5,100) =
      if ((5,100) : ProcID).2 < ((5,200) : ProcID).2 then
        ((start_election ⟨(5,200), [(5,100), (5,200)], none⟩).1,
          ⟨(5,100), "OK"⟩ ::
            (start_election ⟨(5,200), [(5,100), (5,200)], none⟩).2)
      else (⟨(5,200), [(5,100), (5,200)], none⟩, []) :=
  lab2_c3_second_component_rule ⟨(5,200), [(5,100), (5,200)], none⟩ (5,100)
    (by decide)

/-- C4. Claim as written: `start_election` sends ELECTION exactly to the
peers whose ProcessID is lexicographically greater than self's.
Counterexample: the only peer `(3,200)` is lexicographically smaller than
the client's own `(5,100)`, yet the ELECTION broadcast goes to it. -/
theorem lab2_c4_counterexample :
    lexGT c4client.processID (3,200) = true ∧
    (start_election_begin c4client).2 = [⟨(3,200), "ELECTION"⟩] := by
  decide

/-- C4 amended: `start_election` clears `leader` and sends one ELECTION to
exactly the members whose second component (studentID) exceeds this
process's second component, in directory order — the first components take
no part in the comparison. -/
theorem lab2_c4_broadcast_rule (s : Client) :
    (start_election_begin s).1 = { s with leader := none } ∧
    (start_election_begin s).2 =
      (s.member.filter (fun pid => s.processID.2 < pid.2)).map
        (fun pid => (⟨pid, "ELECTION"⟩ : Send)) :=
  ⟨rfl, election_sends_eq s⟩

/-- C5. Claim: receiving OK records that a higher process is alive and
suppresses self-declaration for the round. The code does neither:
`parse_message` on OK returns the state unchanged with no sends, and the
window-expiry check self-declares whenever `leader` is `None` — which it
always is at expiry, because `start_election` clears it and the waiting
window blocks the only thread that could write it. Consequently
`start_election` ends with `leader = self` no matter what arrives. -/
theorem lab2_c5_ok_never_suppresses :
    (∀ (s : Client) (sender : ProcID),
      parse_message s "OK" sender = (s, [])) ∧
    (∀ s : Client,
      (election_expiry { s with leader := none }).1.leader =
        some s.processID) ∧
    (∀ s : Client, (start_election s).1.leader = some s.processID) := by
  refine ⟨fun s sender => rfl, fun s => rfl, fun s => rfl⟩

/-- C6. Confirmed: on COORDINATOR from sender S, `parse_message` sets
`leader = S` unconditionally — in every state, whatever the previous
leader, with no membership check and no reply. -/
theorem lab2_c6_coordinator_overrides (s : Client) (sender : ProcID) :
    parse_message s "COORDINATOR" sender =
      ({ s with leader := some sender }, []) :=
  rfl

/-- C7. Confirmed: when the waiting window expires with `leader` still
unset, the process sets `leader` to its own ProcessID and sends one
COORDINATOR to every member other than itself. -/
theorem lab2_c7_expiry_declares_self (s : Client) (h : s.leader = none) :
    election_expiry s =
      ({ s with leader := some s.processID },
        (s.member.filter (fun pid => pid ≠ s.processID)).map
          (fun pid => (⟨pid, "COORDINATOR"⟩ : Send))) := by
  simp [election_expiry, h, announce_leader_eq]

/-- C7 witness: a concrete expiry with no leader set declares self and
broadcasts COORDINATOR to the one other member. -/
theorem lab2_c7_witness :
    election_expiry ⟨(5,300), [(5,100), (5,300)], none⟩ =
      (⟨(5,300), [(5,100), (5,300)], some (5,300)⟩,
        [⟨(5,100), "COORDINATOR"⟩]) :=
  (lab2_c7_expiry_declares_self ⟨(5,300), [(5,100), (5,300)], none⟩
    rfl).trans (by decide)

/-- C8. Claim as written: a message from a sender not in the member
directory is logged and ignored, leaving `leader` and all other election
state unchanged. Counterexample: the sender `(7,777)` is not in
`c8client`'s directory, yet a COORDINATOR from it replaces the previously
recorded leader `(9,999)` — `parse_message` never checks membership. -/
theorem lab2_c8_counterexample :
    decide ((7,777) ∈ c8client.member) = false ∧
    c8client.leader = some (9,999) ∧
    (parse_message c8client "COORDINATOR" (7,777)).1.leader =
      some (7,777) := by
  decide

/-- C8 amended: only the message kind is filtered, not the sender: a
message whose kind is none of ELECTION, OK, COORDINATOR is ignored and
leaves the state unchanged with nothing sent, but known kinds are processed
whether or not the sender is in the directory (for an out-of-directory
sender only the transport-level reply is refused, inside `send_message`). -/
theorem lab2_c8_unknown_kind_ignored (s : Client) (k : String)
    (sender : ProcID) (h1 : k ≠ "ELECTION") (h2 : k ≠ "OK")
    (h3 : k ≠ "COORDINATOR") :
    parse_message s k sender = (s, []) := by
  simp [parse_message, h1, h2, h3]

/-- C8 witness: a concrete unknown message kind is ignored. -/
theorem lab2_c8_witness :
    parse_message ⟨(5,100), [(5,100)], some (9,999)⟩ "PING" (7,777) =
      (⟨(5,100), [(5,100)], some (9,999)⟩, []) :=
  lab2_c8_unknown_kind_ignored ⟨(5,100), [(5,100)], some (9,999)⟩ "PING"
    (7,777) (by decide) (by decide) (by decide)

/-- C9. Confirmed (for the sequence of completed mailbox operations):
`harvest_messages` returns the whole buffer and resets it to empty with the
gate reopened, and over any completed operation sequence the concatenated
harvest results followed by the final buffer equal the initial buffer
followed by the deposited items in order — every deposited item is
observed by exactly one harvest (or still buffered), none dropped, none
duplicated. -/
theorem lab2_c9_mailbox_round_trip :
    (∀ m : Mailbox,
      mstep m MOp.harvest = some (⟨[], true, false⟩, m.messages)) ∧
    (∀ (tr : List MOp) (s fin : Mailbox) (outs : List Item),
      mrun s tr = some (fin, outs) →
      outs ++ fin.messages = s.messages ++ deposits tr) :=
  ⟨fun _ => rfl, fun tr s fin outs h => mrun_round_trip tr s fin outs h⟩

/-- C9 witness: a concrete deposit-then-harvest run in which the deposited
item is harvested exactly once. -/
theorem lab2_c9_witness :
    [("OK", ((0,1) : ProcID))] ++ (⟨[], true, false⟩ : Mailbox).messages =
      (⟨[], true, false⟩ : Mailbox).messages ++
        deposits [MOp.report ("OK", (0,1)), MOp.harvest] :=
  lab2_c9_mailbox_round_trip.2 [MOp.report ("OK", (0,1)), MOp.harvest]
    ⟨[], true, false⟩ ⟨[], true, false⟩ [("OK", (0,1))] (by decide)

/-- C10. Confirmed: the deposit gate starts closed — after construction
`message_sync` is unset, `report_message` waits on it before appending (and
never sets it), and in any completed operation sequence from the freshly
constructed mailbox a `report` can only occur after an earlier `harvest`:
a report made before the first harvest completes never appends its item. -/
theorem lab2_c10_gate_starts_closed :
    mailbox_init.message_sync = false ∧
    (∀ (s : Mailbox) (m : Item),
      mstep s (MOp.report m) =
        if s.message_sync then
          some ({ s with messages := s.messages ++ [m], message_flag := true }, [])
        else none) ∧
    (∀ (tr : List MOp) (fin : Mailbox) (outs : List Item),
      mrun mailbox_init tr = some (fin, outs) →
      ∀ (i : Nat) (m : Item), tr[i]? = some (MOp.report m) →
        MOp.harvest ∈ tr.take i) :=
  ⟨rfl, fun _ _ => rfl,
    fun tr fin outs h =>
      mrun_report_needs_harvest tr mailbox_init fin outs rfl h⟩

/-- C10 witness: in the concrete completed sequence harvest-then-report,
the report at position 1 is preceded by the harvest. -/
theorem lab2_c10_witness :
    MOp.harvest ∈ ([MOp.harvest, MOp.report ("OK", (0,1))]).take 1 :=
  lab2_c10_gate_starts_closed.2.2 [MOp.harvest, MOp.report ("OK", (0,1))]
    ⟨[("OK", (0,1))], true, true⟩ [] (by decide) 1 ("OK", (0,1)) (by decide)
